import Mathlib

/-!
Shallow embedding of the RiskEscalator risk-detection engine
(src/risk_detection.py and the severity assessor in src/message_analysis.py).

Modelling conventions:
* timestamps are natural numbers (minutes); pandas timestamps are totally
  ordered instants and the code only compares, sorts, and floors them to
  5-minute buckets, all of which `Nat` supports faithfully;
* the VADER sentiment analyzer (external NLTK lexicon model) is an oracle
  parameter `senti : String → ℚ`; the engine only ever compares a message's
  compound score with 0;
* the sklearn CountVectorizer / cosine-similarity matrix of
  `find_risk_clusters` (external library, floating point) is an oracle
  parameter `sim : ℕ → ℕ → Bool`, where `sim i j` stands for
  `similarity_matrix[i, j] > 0.3` over corpus positions;
* Python float divisions that feed `int(...)` are modelled in `ℚ` with
  `Int.floor`; the only such expression is `(dismissal_count / n) * 10` with
  `0 ≤ dismissal_count ≤ n`, whose value has denominator `n`, and for the ten
  exactly-integral cases `k/10` IEEE double division-then-multiplication
  rounds back to the integer, so the rational floor agrees with the float
  computation.
-/

/-- Apostrophe character, used inside one dismissive phrase. -/
def apos : Char := Char.ofNat 39

/-- Risk-related keywords (src/risk_detection.py lines 21-26). -/
def RISK_KEYWORDS : List String :=
  ["spike", "anomaly", "weird", "thermal deviation", "not urgent but",
   "deviation", "unusual", "abnormal", "drift", "fluctuation", "issue",
   "bug", "glitch", "error", "warning", "concern", "problem", "malfunction",
   "failure", "fault", "defect", "inconsistent", "unexpected", "irregular"]

/-- Dismissive language patterns (src/risk_detection.py lines 29-35). -/
def DISMISSIVE_PATTERNS : List String :=
  ["not a big deal", "probably nothing", "don" ++ apos.toString ++ "t worry",
   "not critical", "no need to", "minor", "not urgent", "can ignore",
   "non-blocking", "not a showstopper", "not alarming", "within tolerance",
   "noise", "harmless", "nothing to worry about", "not a concern",
   "deemed non-blocking", "no criticals", "not prioritize", "all clear",
   "no red flags"]

/-- Leadership and decision-maker roles (src/risk_detection.py line 38). -/
def LEADERSHIP_ROLES : List String := ["PM_Lead", "Director", "QA_Tech", "Systems_Admin"]

/-- Python `str.lower()` on the ASCII texts of this repository, as a
character list (`Char.toLower` lowercases exactly the ASCII range). -/
def lowerChars (s : String) : List Char := s.toList.map Char.toLower

/-- Boolean contiguous-sublist test on character lists. -/
def infixOf (needle : List Char) : List Char → Bool
  | [] => needle.isEmpty
  | c :: tl => needle.isPrefixOf (c :: tl) || infixOf needle tl

/-- Python `needle in hay.lower()` with `needle` lowercased: case-insensitive
substring containment. -/
def substrOf (needle hay : String) : Bool :=
  infixOf (lowerChars needle) (lowerChars hay)

/-- Regex word character `\w` (the messages are ASCII). -/
def isWordChar (c : Char) : Bool := c.isAlphanum || c == '_'

/-- A regex word boundary `\b` is satisfied next to this neighbouring
character (none = string edge) when the pattern edge is a word character;
every entry of `DISMISSIVE_PATTERNS` begins and ends with a letter. -/
def boundaryOk : Option Char → Bool
  | none => true
  | some c => !isWordChar c

/-- Search for `pat` bracketed by word boundaries anywhere at or after the
current position; `prev` is the character just before that position. -/
def wbMatchFrom (pat : List Char) (prev : Option Char) : List Char → Bool
  | [] => boundaryOk prev && pat.isEmpty
  | c :: tl =>
      (boundaryOk prev && pat.isPrefixOf (c :: tl) &&
        boundaryOk ((c :: tl).drop pat.length).head?) ||
      wbMatchFrom pat (some c) tl

/-- Embeds `re.search` of each dismissive pattern bracketed by word
boundaries against the lowercased message (src/risk_detection.py lines 68-70). -/
def isDismissive (msg : String) : Bool :=
  DISMISSIVE_PATTERNS.any (fun p => wbMatchFrom (lowerChars p) none (lowerChars msg))

/-- Embeds `any(keyword.lower() in x.lower() for keyword in RISK_KEYWORDS)`
(src/risk_detection.py lines 63-65, re-derived inline at line 181). -/
def containsRiskWord (msg : String) : Bool :=
  RISK_KEYWORDS.any (fun k => substrOf k msg)

/-- Embeds `sender in LEADERSHIP_ROLES` (src/risk_detection.py line 73). -/
def isLeadership (sender : String) : Bool :=
  LEADERSHIP_ROLES.contains sender

/-- Plain (non word-boundary) dismissive substring test used by
`analyze_conversation` line 241 and `detect_communication_gaps` line 281. -/
def dismissiveSubstr (msg : String) : Bool :=
  DISMISSIVE_PATTERNS.any (fun p => substrOf p msg)

/-- Persistence markers of the classifier sweep
(src/risk_detection.py lines 199-205); the ellipsis test uses the raw
message, the others the lowercased message. -/
def hasPersistenceMarker (msg : String) : Bool :=
  substrOf "still" msg || substrOf "not convinced" msg ||
  substrOf "hope" msg || substrOf "guess" msg ||
  substrOf "documenting" msg || substrOf "fingers crossed" msg ||
  infixOf "...".toList msg.toList

/-- One conversation entry: the four required input columns. -/
structure Row where
  timestamp : Nat
  sender : String
  channel : String
  message : String
deriving DecidableEq, Inhabited

/-- One flagged-message record as built by `identify_dismissed_concerns`. -/
structure FlaggedMessage where
  timestamp : Nat
  sender : String
  channel : String
  message : String
  reason : String
deriving DecidableEq

def raiseReason : String := "Raised concern about a potential risk issue"

def dismissReason : String := "Leadership potentially downplaying or dismissing concerns"

def persistReason : String := "Continued concern or doubt expressed after initial discussion"

def mkFlag (r : Row) (reason : String) : FlaggedMessage :=
  ⟨r.timestamp, r.sender, r.channel, r.message, reason⟩

/-- Original-table indices of the rows with `contains_risk_word`
(`df[df['contains_risk_word']].index`, src/risk_detection.py line 103). -/
def riskIndices (rows : List Row) : List Nat :=
  ((rows.enum).filter (fun p => containsRiskWord p.2.message)).map (fun p => p.1)

/-- Greedy seed-based clustering (src/risk_detection.py lines 92-142).
`sim i j` abstracts `similarity_matrix[i, j] > 0.3` over corpus positions.
In the source the inner loop adds each accepted `j` to `visited` as it goes,
but since `j` strictly increases, the membership test a later `j` sees is
equivalent to testing against `visited` as it stood when the seed `i` was
added; the filter below uses that equivalent test. -/
def find_risk_clusters (sim : Nat → Nat → Bool) (rows : List Row) : List (List Nat) :=
  let ri := riskIndices rows
  if ri.length ≤ 1 then
    if ri.length > 0 then ri.map (fun i => [i]) else []
  else
    let m := ri.length
    let step := fun (st : List (List Nat) × List Nat) (i : Nat) =>
      if st.2.contains i then st
      else
        let vis1 := st.2 ++ [i]
        let js := (List.range m).filter (fun j => (i != j) && !(vis1.contains j) && sim i j)
        (st.1 ++ [ri.getD i 0 :: js.map (fun j => ri.getD j 0)], vis1 ++ js)
    ((List.range m).foldl step ([], [])).1

def rowLe (a b : Row) : Prop := a.timestamp ≤ b.timestamp

instance : DecidableRel rowLe := fun a b => inferInstanceAs (Decidable (a.timestamp ≤ b.timestamp))

instance : IsTotal Row rowLe := ⟨fun a b => Nat.le_total a.timestamp b.timestamp⟩

instance : IsTrans Row rowLe := ⟨fun _ _ _ => Nat.le_trans⟩

def flagLe (a b : FlaggedMessage) : Prop := a.timestamp ≤ b.timestamp

instance : DecidableRel flagLe := fun a b => inferInstanceAs (Decidable (a.timestamp ≤ b.timestamp))

instance : IsTotal FlaggedMessage flagLe := ⟨fun a b => Nat.le_total a.timestamp b.timestamp⟩

instance : IsTrans FlaggedMessage flagLe := ⟨fun _ _ _ => Nat.le_trans⟩

/-- Embeds `df.loc[cluster].sort_values(..)` on the timestamp column
(src/risk_detection.py line 159): select the cluster's rows and sort them by timestamp.  Cluster
indices produced by `find_risk_clusters` are always in range; `getD` keeps
the selection total. -/
def clusterMsgs (rows : List Row) (cluster : List Nat) : List Row :=
  List.insertionSort rowLe (cluster.map (fun i => rows.getD i default))

/-- First chronological walk over a cluster (src/risk_detection.py
lines 165-191): state is (flagged list, concerns_raised, concerns_dismissed). -/
def pass1Step (senti : String → ℚ) (st : List FlaggedMessage × Bool × Bool) (r : Row) :
    List FlaggedMessage × Bool × Bool :=
  if containsRiskWord r.message && !isLeadership r.sender then
    (st.1 ++ [mkFlag r raiseReason], true, st.2.2)
  else if isLeadership r.sender &&
      (isDismissive r.message || (decide (0 < senti r.message) && containsRiskWord r.message)) then
    (st.1 ++ [mkFlag r dismissReason], st.2.1, true)
  else st

def pass1Res (senti : String → ℚ) (rows : List Row) (flags : List FlaggedMessage)
    (cluster : List Nat) : List FlaggedMessage × Bool × Bool :=
  (clusterMsgs rows cluster).foldl (pass1Step senti) (flags, false, false)

/-- One step of the persistence sweep (src/risk_detection.py lines 196-213). -/
def sweepStep (st : List FlaggedMessage) (r : Row) : List FlaggedMessage :=
  if !isLeadership r.sender && !(st.any (fun f => f.timestamp == r.timestamp)) then
    if hasPersistenceMarker r.message then st ++ [mkFlag r persistReason] else st
  else st

/-- Process one cluster (body of the loop at src/risk_detection.py
lines 158-213). -/
def processCluster (senti : String → ℚ) (rows : List Row) (flags : List FlaggedMessage)
    (cluster : List Nat) : List FlaggedMessage :=
  let ms := clusterMsgs rows cluster
  let st := pass1Res senti rows flags cluster
  if st.2.1 && decide (ms.length > 1) then ms.foldl sweepStep st.1 else st.1

/-- Embeds `identify_dismissed_concerns` (src/risk_detection.py lines 144-215). -/
def identify_dismissed_concerns (senti : String → ℚ) (rows : List Row)
    (risk_clusters : List (List Nat)) : List FlaggedMessage :=
  risk_clusters.foldl (processCluster senti rows) []

/-- Embeds `detect_risks` (src/risk_detection.py lines 40-90): score, cluster,
classify, then stably sort the flagged messages by timestamp
(`list.sort` is stable; `insertionSort` is its stable embedding). -/
def detect_risks (senti : String → ℚ) (sim : Nat → Nat → Bool)
    (rows : List Row) : List FlaggedMessage :=
  List.insertionSort flagLe (identify_dismissed_concerns senti rows (find_risk_clusters sim rows))

/-- Severity assessment record (output of `assess_risk_severity`). -/
structure Severity where
  overall : String
  dismissal_factor : Int
  persistence_factor : Int
  impact_potential : Int
deriving DecidableEq

/-- Persistence word list (src/message_analysis.py line 241). -/
def persistenceWords : List String := ["still", "again", "continues", "persist", "repeat"]

/-- High-severity word list (src/message_analysis.py line 252). -/
def highSeverityWords : List String :=
  ["critical", "serious", "significant", "major", "important", "dangerous"]

/-- Medium-severity word list (src/message_analysis.py line 253). -/
def mediumSeverityWords : List String :=
  ["concerning", "notable", "unusual", "unexpected", "strange"]

/-- Low-severity word list (src/message_analysis.py line 254). -/
def lowSeverityWords : List String := ["minor", "small", "slight", "tiny", "little"]

/-- Local `dismissal_count` (src/message_analysis.py line 231): flagged entries
whose reason text contains "dismiss" or "downplay" case-insensitively. -/
def dismissal_count_of (fl : List FlaggedMessage) : Nat :=
  fl.countP (fun f => substrOf "dismiss" f.reason || substrOf "downplay" f.reason)

/-- Local `dismissal_factor` (src/message_analysis.py line 232): Python's
`int(...)` truncates toward zero, which on this nonnegative value is the
floor. -/
def dismissal_factor_of (fl : List FlaggedMessage) : Int :=
  min 10 (Int.floor ((dismissal_count_of fl : ℚ) / (fl.length : ℚ) * 10) + 3)

/-- Local `concern_raisers` (src/message_analysis.py lines 236-238): number of
distinct senders among entries whose reason matches the regex
`concern|raised` case-insensitively. -/
def concern_raisers_of (fl : List FlaggedMessage) : Nat :=
  (((fl.filter (fun f => substrOf "concern" f.reason || substrOf "raised" f.reason)).map
    (fun f => f.sender)).dedup).length

/-- Local `persistence_count` (src/message_analysis.py lines 241-245). -/
def persistence_count_of (fl : List FlaggedMessage) : Nat :=
  fl.countP (fun f => persistenceWords.any (fun w => substrOf w f.message))

/-- Local `persistence_factor` (src/message_analysis.py line 247). -/
def persistence_factor_of (fl : List FlaggedMessage) : Int :=
  min 10 ((concern_raisers_of fl : Int) * 2 + (persistence_count_of fl : Int))

/-- Local `high_count` (src/message_analysis.py lines 258-261). -/
def high_count_of (fl : List FlaggedMessage) : Nat :=
  fl.countP (fun f => highSeverityWords.any (fun w => substrOf w f.message))

/-- Local `medium_count` (src/message_analysis.py lines 263-266). -/
def medium_count_of (fl : List FlaggedMessage) : Nat :=
  fl.countP (fun f => mediumSeverityWords.any (fun w => substrOf w f.message))

/-- Local `low_count` (src/message_analysis.py lines 268-271). -/
def low_count_of (fl : List FlaggedMessage) : Nat :=
  fl.countP (fun f => lowSeverityWords.any (fun w => substrOf w f.message))

/-- Local `impact_potential` (src/message_analysis.py line 274). -/
def impact_potential_of (fl : List FlaggedMessage) : Int :=
  min 10 ((high_count_of fl : Int) * 3 + (medium_count_of fl : Int) * 2 + (low_count_of fl : Int) + 2)

/-- Overall band from the three factors (src/message_analysis.py
lines 276-284): Python's `/ 3` on these small integers is exact in `ℚ`. -/
def overall_of (d p i : Int) : String :=
  let overall_score : ℚ := ((d : ℚ) + (p : ℚ) + (i : ℚ)) / 3
  if overall_score ≥ 7 then "High" else if overall_score ≥ 4 then "Medium" else "Low"

/-- Embeds `assess_risk_severity` (src/message_analysis.py lines 210-291); `none`
models the `flagged_df is None` call made when no message was flagged. -/
def assess_risk_severity (flagged : Option (List FlaggedMessage)) (_conv : List Row) : Severity :=
  match flagged with
  | none => ⟨"Low", 2, 1, 3⟩
  | some fl =>
    if fl.isEmpty then ⟨"Low", 2, 1, 3⟩
    else
      let d := dismissal_factor_of fl
      let p := persistence_factor_of fl
      let i := impact_potential_of fl
      ⟨overall_of d p i, d, p, i⟩

/-- Input table: the four required columns as `rows`, plus any derived
columns later assigned to the frame in place (`df[name] = values`), with the
assigned values as a list aligned with `rows`. -/
structure Table where
  rows : List Row
  derived : List (String × List Nat)
deriving DecidableEq

/-- Pandas column assignment `df[name] = vals`: replaces the column when the
name exists, otherwise appends it. -/
def Table.setCol (t : Table) (name : String) (vals : List Nat) : Table :=
  if t.derived.any (fun p => p.1 == name) then
    ⟨t.rows, t.derived.map (fun p => if p.1 == name then (name, vals) else p)⟩
  else
    ⟨t.rows, t.derived ++ [(name, vals)]⟩

/-- Embeds the 5-minute timestamp flooring on timestamps in minutes. -/
def floor5 (t : Nat) : Nat := t / 5 * 5

/-- One communication-gap record (src/risk_detection.py lines 282-286);
`to_dict('records')` keeps the row fields. -/
structure Gap where
  time_window : Nat
  concerns : List Row
  responses : List Row
deriving DecidableEq

/-- Embeds `detect_communication_gaps` (src/risk_detection.py lines 251-288).  The
first statement assigns a `time_window` column to the caller's frame in
place; `groupby` iterates the 5-minute buckets in ascending key order.  The
mutated table is returned alongside the gap list. -/
def detect_communication_gaps (df : Table) : List Gap × Table :=
  let df1 := df.setCol "time_window" (df.rows.map (fun r => floor5 r.timestamp))
  let windows := List.insertionSort (fun a b : Nat => a ≤ b)
    ((df1.rows.map (fun r => floor5 r.timestamp)).dedup)
  let gaps := windows.foldl (fun acc w =>
    let group := df1.rows.filter (fun r => floor5 r.timestamp == w)
    let engineer_concerns :=
      group.filter (fun r => !isLeadership r.sender && containsRiskWord r.message)
    if engineer_concerns.length > 0 then
      let leadership_responses := group.filter (fun r => isLeadership r.sender)
      if leadership_responses.length == 0 ||
          leadership_responses.any (fun r => dismissiveSubstr r.message) then
        acc ++ [⟨w, engineer_concerns, leadership_responses⟩]
      else acc
    else acc) []
  (gaps, df1)

/-- Conversation-level statistics (src/risk_detection.py lines 234-247). -/
structure ConvAnalysis where
  total_messages : Nat
  messages_per_sender : List (String × Nat)
  messages_per_channel : List (String × Nat)
  avg_sentiment : ℚ
  sentiment_trend : List ℚ
  risk_keywords_found : Nat
  dismissive_language_count : Nat
  leadership_message_count : Nat
  timeline : List Nat
  communication_gaps : List Gap

/-- Embeds `value_counts().to_dict()`: a finite map from value to multiplicity
(dict equality ignores entry order, so first-occurrence order is kept). -/
def valueCounts (l : List String) : List (String × Nat) :=
  l.dedup.map (fun s => (s, l.count s))

/-- Embeds `np.mean` over the compound sentiments, in exact rational arithmetic. -/
def meanQ (l : List ℚ) : ℚ := l.sum / (l.length : ℚ)

/-- Embeds `analyze_conversation` (src/risk_detection.py lines 217-249).  The frame
handed to `detect_communication_gaps` is the caller's table itself, so the
`time_window` assignment made there lands on the caller's table; the second
component is the table as the caller observes it afterwards. -/
def analyze_conversation (senti : String → ℚ) (df : Table) : ConvAnalysis × Table :=
  let sentiments := df.rows.map (fun r => senti r.message)
  let gt := detect_communication_gaps df
  (⟨df.rows.length,
    valueCounts (df.rows.map (fun r => r.sender)),
    valueCounts (df.rows.map (fun r => r.channel)),
    meanQ sentiments,
    sentiments,
    df.rows.countP (fun r => containsRiskWord r.message),
    df.rows.countP (fun r => dismissiveSubstr r.message),
    df.rows.countP (fun r => isLeadership r.sender),
    df.rows.map (fun r => r.timestamp),
    gt.1⟩, gt.2)

/-- Embeds `detect_risks` at table level: src/risk_detection.py line 51 copies the
frame (`df_copy = df.copy()`) and every derived-column assignment targets the
copy, so the caller's table comes back unchanged next to the flag list. -/
def detect_risks_table (senti : String → ℚ) (sim : Nat → Nat → Bool)
    (df : Table) : List FlaggedMessage × Table :=
  (detect_risks senti sim df.rows, df)

/-- Overall severity band exactly as the specification words it:
`avg ≥ 7 → High`, `4 ≤ avg < 7 → Medium`, else `Low`. -/
def specOverallBand (avg : ℚ) : String :=
  if avg ≥ 7 then "High" else if 4 ≤ avg ∧ avg < 7 then "Medium" else "Low"

/-- Dismissal factor exactly as the specification words it:
`min(10, floor((dismissiveReasonCount / totalFlagged) * 10) + 3)` with
`dismissiveReasonCount` the number of flagged entries whose reason contains
"dismiss" or "downplay" case-insensitively. -/
def specDismissalFactor (fl : List FlaggedMessage) : Int :=
  min 10 (Int.floor
    ((fl.countP (fun f => substrOf "dismiss" f.reason || substrOf "downplay" f.reason) : ℚ) /
      (fl.length : ℚ) * 10) + 3)

theorem overall_of_eq_specOverallBand (d p i : Int) :
    overall_of d p i = specOverallBand (((d : ℚ) + (p : ℚ) + (i : ℚ)) / 3) := by
  simp only [overall_of, specOverallBand]
  split_ifs with h1 h2 h3 h4 <;>
    first
      | rfl
      | (exact absurd ⟨h2, lt_of_not_ge h1⟩ h3)
      | (exact absurd h4.1 h2)

/-- Sample flagged record used by concrete witnesses. -/
def sampleFlag : FlaggedMessage := ⟨0, "Engineer", "eng", "hm", raiseReason⟩

/-- C4: an empty conversation yields an empty flagged list (`detect_risks`
returns `[]` on zero rows for every sentiment and similarity oracle), and
`assess_risk_severity` on an absent or empty flagged list returns exactly
the defaults overall="Low", dismissal=2, persistence=1, impact=3. -/
theorem C4_empty_conversation_defaults (senti : String → ℚ) (sim : Nat → Nat → Bool)
    (conv : List Row) :
    detect_risks senti sim [] = [] ∧
    assess_risk_severity none conv = ⟨"Low", 2, 1, 3⟩ ∧
    assess_risk_severity (some []) conv = ⟨"Low", 2, 1, 3⟩ :=
  ⟨rfl, rfl, rfl⟩

/-- C2: for every non-empty flagged list, the overall severity returned by
`assess_risk_severity` is the spec's banding of the average of the three
factors, and the band maps an average of exactly 7.0 to "High", exactly 4.0
to "Medium", and 3.99 to "Low". -/
theorem C2_overall_is_band_of_average (fl : List FlaggedMessage) (conv : List Row)
    (h : fl ≠ []) :
    (assess_risk_severity (some fl) conv).overall =
      specOverallBand ((((assess_risk_severity (some fl) conv).dismissal_factor : ℚ) +
        ((assess_risk_severity (some fl) conv).persistence_factor : ℚ) +
        ((assess_risk_severity (some fl) conv).impact_potential : ℚ)) / 3) ∧
    specOverallBand 7 = "High" ∧ specOverallBand 4 = "Medium" ∧
    specOverallBand (399 / 100) = "Low" := by
  obtain ⟨a, l, rfl⟩ := List.exists_cons_of_ne_nil h
  refine ⟨overall_of_eq_specOverallBand _ _ _, ?_, ?_, ?_⟩
  · simp only [specOverallBand]
    rw [if_pos (by norm_num)]
  · simp only [specOverallBand]
    rw [if_neg (by norm_num), if_pos (by norm_num)]
  · simp only [specOverallBand]
    rw [if_neg (by norm_num), if_neg (by rintro ⟨h1, h2⟩; norm_num at h1)]

/-- C2 witness: the banding law at the concrete one-flag list. -/
theorem C2_witness :
    ([sampleFlag] ≠ ([] : List FlaggedMessage)) ∧
    ((assess_risk_severity (some [sampleFlag]) []).overall =
      specOverallBand ((((assess_risk_severity (some [sampleFlag]) []).dismissal_factor : ℚ) +
        ((assess_risk_severity (some [sampleFlag]) []).persistence_factor : ℚ) +
        ((assess_risk_severity (some [sampleFlag]) []).impact_potential : ℚ)) / 3) ∧
    specOverallBand 7 = "High" ∧ specOverallBand 4 = "Medium" ∧
    specOverallBand (399 / 100) = "Low") :=
  ⟨by decide, C2_overall_is_band_of_average [sampleFlag] [] (by decide)⟩

/-- C3: for every non-empty flagged list, the dismissal factor computed by
`assess_risk_severity` equals the spec formula
`min(10, floor((dismissiveReasonCount / totalFlagged) * 10) + 3)`. -/
theorem C3_dismissal_factor_formula (fl : List FlaggedMessage) (conv : List Row)
    (h : fl ≠ []) :
    (assess_risk_severity (some fl) conv).dismissal_factor = specDismissalFactor fl := by
  obtain ⟨a, l, rfl⟩ := List.exists_cons_of_ne_nil h
  rfl

/-- C3 witness: the dismissal-factor formula at the concrete one-flag list. -/
theorem C3_witness :
    ([sampleFlag] ≠ ([] : List FlaggedMessage)) ∧
    (assess_risk_severity (some [sampleFlag]) []).dismissal_factor =
      specDismissalFactor [sampleFlag] :=
  ⟨by decide, C3_dismissal_factor_formula [sampleFlag] [] (by decide)⟩

/-- C10: if no message contains a risk keyword, `find_risk_clusters` returns
no clusters; if exactly one does, it returns exactly one singleton cluster
holding that message's row index — for every similarity oracle. -/
theorem C10_degenerate_clustering (sim : Nat → Nat → Bool) (rows : List Row) :
    (riskIndices rows = [] → find_risk_clusters sim rows = []) ∧
    (∀ i : Nat, riskIndices rows = [i] → find_risk_clusters sim rows = [[i]]) := by
  constructor
  · intro h
    simp [find_risk_clusters, h]
  · intro i h
    simp [find_risk_clusters, h]

/-- Witness row with no risk keyword. -/
def wNoRisk : Row := ⟨0, "Alice", "general", "all good"⟩

/-- Witness row containing risk keywords. -/
def wRisk : Row := ⟨3, "Bob", "general", "weird spike"⟩

/-- C10 witness: the two degenerate cluster cases at concrete conversations. -/
theorem C10_witness :
    (riskIndices [wNoRisk] = [] ∧ find_risk_clusters (fun _ _ => true) [wNoRisk] = []) ∧
    (riskIndices [wNoRisk, wRisk] = [1] ∧
      find_risk_clusters (fun _ _ => true) [wNoRisk, wRisk] = [[1]]) :=
  ⟨⟨by decide, (C10_degenerate_clustering (fun _ _ => true) [wNoRisk]).1 (by decide)⟩,
   ⟨by decide, (C10_degenerate_clustering (fun _ _ => true) [wNoRisk, wRisk]).2 1 (by decide)⟩⟩

/-- First message of the spec's two-message scenario: a non-leadership
sender raising a thermal-spike concern. -/
def c1row1 : Row := ⟨0, "Engineer", "eng", "We saw a thermal spike, concerning."⟩

/-- Second message of the spec's two-message scenario, 2 minutes later: a
PM_Lead reply that matches the dismissive pattern "probably nothing" and
"not urgent" but contains no risk keyword. -/
def c1row2 : Row := ⟨2, "PM_Lead", "eng", "Probably nothing, not urgent, moving on."⟩

def c1conv : List Row := [c1row1, c1row2]

def c1flag : FlaggedMessage := mkFlag c1row1 raiseReason

/-- C1 counterexample: on the spec's two-message scenario `detect_risks`
returns exactly ONE flagged entry (the raise flag on the first message), not
two, and `assess_risk_severity` on that list yields dismissal_factor 3, not
4.  The PM_Lead reply contains no risk keyword, so it never enters a risk
cluster and the classifier never examines it. -/
theorem C1_counterexample :
    detect_risks (fun _ => 0) (fun _ _ => false) c1conv = [c1flag] ∧
    (assess_risk_severity (some [c1flag]) c1conv).dismissal_factor = 3 := by
  constructor
  · rfl
  · have h0 : dismissal_count_of [c1flag] = 0 := by decide
    have h1 : ([c1flag] : List FlaggedMessage).length = 1 := by decide
    simp only [assess_risk_severity, List.isEmpty, dismissal_factor_of, h0, h1]
    norm_num

/-- C1 amended: on the spec's scenario, for EVERY sentiment and similarity
oracle, `detect_risks` returns exactly one flagged entry — the first message
flagged "Raised concern about a potential risk issue" — and
`assess_risk_severity` on it yields dismissal_factor = 3 (from
dismissiveReasonCount = 0, total = 1). -/
theorem C1_amended (senti : String → ℚ) (sim : Nat → Nat → Bool) :
    detect_risks senti sim c1conv = [c1flag] ∧
    c1flag.reason = "Raised concern about a potential risk issue" ∧
    (assess_risk_severity (some (detect_risks senti sim c1conv)) c1conv).dismissal_factor = 3 := by
  refine ⟨rfl, rfl, ?_⟩
  have he : detect_risks senti sim c1conv = [c1flag] := rfl
  rw [he]
  have h0 : dismissal_count_of [c1flag] = 0 := by decide
  have h1 : ([c1flag] : List FlaggedMessage).length = 1 := by decide
  simp only [assess_risk_severity, List.isEmpty, dismissal_factor_of, h0, h1]
  norm_num

theorem filter_orderedInsert_ts (x : FlaggedMessage) (l : List FlaggedMessage) (t : Nat) :
    (List.orderedInsert flagLe x l).filter (fun f => f.timestamp == t) =
      if x.timestamp == t then x :: l.filter (fun f => f.timestamp == t)
      else l.filter (fun f => f.timestamp == t) := by
  induction l with
  | nil =>
    simp only [List.orderedInsert_nil, List.filter]
    split_ifs with h
    · simp [h]
    · simp [h]
  | cons b tl ih =>
    by_cases hle : flagLe x b
    · rw [List.orderedInsert_of_le _ _ hle]
      simp only [List.filter_cons]
    · have hrw : List.orderedInsert flagLe x (b :: tl) = b :: List.orderedInsert flagLe x tl := by
        simp [List.orderedInsert, hle]
      rw [hrw, List.filter_cons, ih, List.filter_cons]
      by_cases hx : x.timestamp == t
      · by_cases hb : b.timestamp == t
        · exfalso
          have hx' : x.timestamp = t := by simpa using hx
          have hb' : b.timestamp = t := by simpa using hb
          have : ¬ x.timestamp ≤ b.timestamp := hle
          omega
        · simp [hx, hb]
      · by_cases hb : b.timestamp == t
        · simp [hx, hb]
        · simp [hx, hb]

theorem filter_insertionSort_ts (l : List FlaggedMessage) (t : Nat) :
    (List.insertionSort flagLe l).filter (fun f => f.timestamp == t) =
      l.filter (fun f => f.timestamp == t) := by
  induction l with
  | nil => rfl
  | cons a tl ih =>
    simp only [List.insertionSort]
    rw [filter_orderedInsert_ts, ih, List.filter_cons]

/-- C5: the list returned by `detect_risks` is sorted non-decreasingly by
timestamp, and for every timestamp value the entries carrying it appear in
exactly the order the cluster-processing stage appended them (the final
global sort is stable). -/
theorem C5_sorted_and_stable (senti : String → ℚ) (sim : Nat → Nat → Bool) (rows : List Row) :
    List.Sorted flagLe (detect_risks senti sim rows) ∧
    ∀ t : Nat, (detect_risks senti sim rows).filter (fun f => f.timestamp == t) =
      (identify_dismissed_concerns senti rows (find_risk_clusters sim rows)).filter
        (fun f => f.timestamp == t) :=
  ⟨List.sorted_insertionSort flagLe _, fun t => filter_insertionSort_ts _ t⟩

theorem dismissal_factor_bounds (fl : List FlaggedMessage) :
    3 ≤ dismissal_factor_of fl ∧ dismissal_factor_of fl ≤ 10 := by
  unfold dismissal_factor_of
  have hx : (0 : ℚ) ≤ (dismissal_count_of fl : ℚ) / (fl.length : ℚ) * 10 := by positivity
  have hfl : (0 : ℤ) ≤ Int.floor ((dismissal_count_of fl : ℚ) / (fl.length : ℚ) * 10) :=
    Int.floor_nonneg.mpr hx
  omega

theorem impact_potential_bounds (fl : List FlaggedMessage) :
    2 ≤ impact_potential_of fl ∧ impact_potential_of fl ≤ 10 := by
  unfold impact_potential_of
  omega

theorem concern_raisers_pos (fl : List FlaggedMessage) (h : fl ≠ [])
    (hr : ∀ f ∈ fl, f.reason = raiseReason ∨ f.reason = dismissReason ∨
      f.reason = persistReason) :
    1 ≤ concern_raisers_of fl := by
  unfold concern_raisers_of
  have hfil : fl.filter
      (fun f => substrOf "concern" f.reason || substrOf "raised" f.reason) = fl := by
    refine List.filter_eq_self.mpr (fun f hf => ?_)
    rcases hr f hf with hc | hc | hc <;> rw [hc] <;> decide
  rw [hfil]
  have hmap : (fl.map (fun f => f.sender)) ≠ [] := by
    cases fl with
    | nil => exact absurd rfl h
    | cons a l => simp
  have hded : ((fl.map (fun f => f.sender)).dedup) ≠ [] := by
    intro hnil
    exact hmap ((List.dedup_eq_nil _).mp hnil)
  have := List.length_pos.mpr hded
  omega

theorem persistence_factor_bounds (fl : List FlaggedMessage) (h : fl ≠ [])
    (hr : ∀ f ∈ fl, f.reason = raiseReason ∨ f.reason = dismissReason ∨
      f.reason = persistReason) :
    2 ≤ persistence_factor_of fl ∧ persistence_factor_of fl ≤ 10 := by
  have hcr := concern_raisers_pos fl h hr
  unfold persistence_factor_of
  omega

/-- C8: for every non-empty flagged list whose reasons are the classifier's
reason strings, each of the three severity factors is an integer between 1
and 10 inclusive. -/
theorem C8_factors_in_range (fl : List FlaggedMessage) (conv : List Row) (h : fl ≠ [])
    (hr : ∀ f ∈ fl, f.reason = raiseReason ∨ f.reason = dismissReason ∨
      f.reason = persistReason) :
    (1 ≤ (assess_risk_severity (some fl) conv).dismissal_factor ∧
      (assess_risk_severity (some fl) conv).dismissal_factor ≤ 10) ∧
    (1 ≤ (assess_risk_severity (some fl) conv).persistence_factor ∧
      (assess_risk_severity (some fl) conv).persistence_factor ≤ 10) ∧
    (1 ≤ (assess_risk_severity (some fl) conv).impact_potential ∧
      (assess_risk_severity (some fl) conv).impact_potential ≤ 10) := by
  obtain ⟨a, l, rfl⟩ := List.exists_cons_of_ne_nil h
  have hd := dismissal_factor_bounds (a :: l)
  have hp := persistence_factor_bounds (a :: l) h hr
  have hi := impact_potential_bounds (a :: l)
  have e1 : (assess_risk_severity (some (a :: l)) conv).dismissal_factor =
      dismissal_factor_of (a :: l) := rfl
  have e2 : (assess_risk_severity (some (a :: l)) conv).persistence_factor =
      persistence_factor_of (a :: l) := rfl
  have e3 : (assess_risk_severity (some (a :: l)) conv).impact_potential =
      impact_potential_of (a :: l) := rfl
  rw [e1, e2, e3]
  omega

/-- C8 witness: the factor bounds at the concrete one-flag list. -/
theorem C8_witness :
    ([sampleFlag] ≠ ([] : List FlaggedMessage)) ∧
    ((1 ≤ (assess_risk_severity (some [sampleFlag]) []).dismissal_factor ∧
      (assess_risk_severity (some [sampleFlag]) []).dismissal_factor ≤ 10) ∧
    (1 ≤ (assess_risk_severity (some [sampleFlag]) []).persistence_factor ∧
      (assess_risk_severity (some [sampleFlag]) []).persistence_factor ≤ 10) ∧
    (1 ≤ (assess_risk_severity (some [sampleFlag]) []).impact_potential ∧
      (assess_risk_severity (some [sampleFlag]) []).impact_potential ≤ 10)) :=
  ⟨by decide, C8_factors_in_range [sampleFlag] [] (by decide) (by decide)⟩

/-- C9 counterexample: `analyze_conversation` DOES modify the caller's
table.  On a one-row table with no derived columns, the table observed after
the call has gained a `time_window` column (assigned in place by
`detect_communication_gaps` at src/risk_detection.py line 265), so it
differs from the input table. -/
theorem C9_counterexample :
    (analyze_conversation (fun _ => 0) ⟨[wRisk], []⟩).2 ≠ (⟨[wRisk], []⟩ : Table) := by
  decide

/-- C9 amended: `detect_risks` leaves the caller's table unchanged (it works
on a copy, src/risk_detection.py line 51), but `analyze_conversation`
mutates the caller's table: it comes back with the `time_window` column of
5-minute-floored timestamps assigned in place. -/
theorem C9_amended (senti : String → ℚ) (sim : Nat → Nat → Bool) (df : Table) :
    (detect_risks_table senti sim df).2 = df ∧
    (analyze_conversation senti df).2 =
      df.setCol "time_window" (df.rows.map (fun r => floor5 r.timestamp)) :=
  ⟨rfl, rfl⟩

theorem pass1Step_prefix (senti : String → ℚ) (st : List FlaggedMessage × Bool × Bool)
    (r : Row) : ∃ e, (pass1Step senti st r).1 = st.1 ++ e := by
  unfold pass1Step
  split_ifs with h1 h2
  · exact ⟨[mkFlag r raiseReason], rfl⟩
  · exact ⟨[mkFlag r dismissReason], rfl⟩
  · exact ⟨[], (List.append_nil _).symm⟩

theorem pass1_foldl_prefix (senti : String → ℚ) (ms : List Row)
    (st : List FlaggedMessage × Bool × Bool) :
    ∃ e, (ms.foldl (pass1Step senti) st).1 = st.1 ++ e := by
  induction ms generalizing st with
  | nil => exact ⟨[], (List.append_nil _).symm⟩
  | cons r tl ih =>
    obtain ⟨e, he⟩ := ih (pass1Step senti st r)
    obtain ⟨e0, he0⟩ := pass1Step_prefix senti st r
    exact ⟨e0 ++ e, by rw [List.foldl_cons, he, he0, List.append_assoc]⟩

theorem sweepStep_prefix (fl : List FlaggedMessage) (r : Row) :
    ∃ e, sweepStep fl r = fl ++ e := by
  unfold sweepStep
  split_ifs with h1 h2
  · exact ⟨[mkFlag r persistReason], rfl⟩
  · exact ⟨[], (List.append_nil _).symm⟩
  · exact ⟨[], (List.append_nil _).symm⟩

theorem sweep_foldl_prefix (ms : List Row) (fl : List FlaggedMessage) :
    ∃ e, ms.foldl sweepStep fl = fl ++ e := by
  induction ms generalizing fl with
  | nil => exact ⟨[], (List.append_nil _).symm⟩
  | cons r tl ih =>
    obtain ⟨e, he⟩ := ih (sweepStep fl r)
    obtain ⟨e0, he0⟩ := sweepStep_prefix fl r
    exact ⟨e0 ++ e, by rw [List.foldl_cons, he, he0, List.append_assoc]⟩

theorem processCluster_prefix (senti : String → ℚ) (rows : List Row)
    (fl : List FlaggedMessage) (c : List Nat) :
    ∃ e, processCluster senti rows fl c = fl ++ e := by
  simp only [processCluster]
  obtain ⟨e1, he1⟩ := pass1_foldl_prefix senti (clusterMsgs rows c) (fl, false, false)
  split_ifs with hif
  · obtain ⟨e2, he2⟩ := sweep_foldl_prefix (clusterMsgs rows c) (pass1Res senti rows fl c).1
    refine ⟨e1 ++ e2, ?_⟩
    rw [he2]
    show (pass1Res senti rows fl c).1 ++ e2 = fl ++ (e1 ++ e2)
    rw [show (pass1Res senti rows fl c).1 = fl ++ e1 from he1, List.append_assoc]
  · exact ⟨e1, he1⟩

theorem foldl_processCluster_mono (senti : String → ℚ) (rows : List Row)
    (cs : List (List Nat)) (fl : List FlaggedMessage) (a : FlaggedMessage) (ha : a ∈ fl) :
    a ∈ cs.foldl (processCluster senti rows) fl := by
  induction cs generalizing fl with
  | nil => exact ha
  | cons c tl ih =>
    rw [List.foldl_cons]
    obtain ⟨e, he⟩ := processCluster_prefix senti rows fl c
    exact ih _ (by rw [he]; exact List.mem_append_left _ ha)

theorem pass1_mem_dismiss (senti : String → ℚ) (ms : List Row)
    (st : List FlaggedMessage × Bool × Bool) (r : Row) (hmem : r ∈ ms)
    (hlead : isLeadership r.sender = true)
    (hcond : isDismissive r.message = true ∨
      (0 < senti r.message ∧ containsRiskWord r.message = true)) :
    mkFlag r dismissReason ∈ (ms.foldl (pass1Step senti) st).1 := by
  induction ms generalizing st with
  | nil => cases hmem
  | cons a tl ih =>
    rcases List.mem_cons.mp hmem with heq | htl
    · subst heq
      have hc1 : (containsRiskWord r.message && !isLeadership r.sender) = false := by
        rw [hlead]; simp
      have hc2 : (isLeadership r.sender && (isDismissive r.message ||
          (decide (0 < senti r.message) && containsRiskWord r.message))) = true := by
        rw [hlead]
        rcases hcond with hd | ⟨hs, hw⟩
        · rw [hd]; simp
        · rw [hw, decide_eq_true hs]; simp
      have hstep : (pass1Step senti st r).1 = st.1 ++ [mkFlag r dismissReason] := by
        unfold pass1Step
        rw [hc1, hc2]
        simp
      rw [List.foldl_cons]
      obtain ⟨e, he⟩ := pass1_foldl_prefix senti tl (pass1Step senti st r)
      rw [he, hstep]
      simp
    · rw [List.foldl_cons]
      exact ih _ htl

theorem processCluster_mem_dismiss (senti : String → ℚ) (rows : List Row)
    (fl : List FlaggedMessage) (c : List Nat) (r : Row) (hmem : r ∈ clusterMsgs rows c)
    (hlead : isLeadership r.sender = true)
    (hcond : isDismissive r.message = true ∨
      (0 < senti r.message ∧ containsRiskWord r.message = true)) :
    mkFlag r dismissReason ∈ processCluster senti rows fl c := by
  have hm := pass1_mem_dismiss senti (clusterMsgs rows c) (fl, false, false) r hmem hlead hcond
  simp only [processCluster]
  split_ifs with hif
  · obtain ⟨e, he⟩ := sweep_foldl_prefix (clusterMsgs rows c) (pass1Res senti rows fl c).1
    rw [he]
    exact List.mem_append_left _ hm
  · exact hm

/-- C6: every leadership message belonging to a cluster that is
dismissive-language-flagged — or has positive compound sentiment and
contains a risk keyword — is flagged "Leadership potentially downplaying or
dismissing concerns", with no requirement that any concern was raised
earlier in the cluster; a singleton cluster of such a message still
produces the flag (see the witness). -/
theorem C6_leadership_dismiss_flag (senti : String → ℚ) (rows : List Row)
    (clusters : List (List Nat)) (c : List Nat) (i : Nat)
    (hc : c ∈ clusters) (hi : i ∈ c) (_hlen : i < rows.length)
    (hlead : isLeadership (rows.getD i default).sender = true)
    (hcond : isDismissive (rows.getD i default).message = true ∨
      (0 < senti (rows.getD i default).message ∧
        containsRiskWord (rows.getD i default).message = true)) :
    mkFlag (rows.getD i default) dismissReason ∈
      identify_dismissed_concerns senti rows clusters := by
  have hmem : rows.getD i default ∈ clusterMsgs rows c := by
    have h1 : rows.getD i default ∈ c.map (fun j => rows.getD j default) :=
      List.mem_map_of_mem _ hi
    unfold clusterMsgs
    exact (List.perm_insertionSort rowLe _).mem_iff.mpr h1
  obtain ⟨pre, post, rfl⟩ := List.append_of_mem hc
  unfold identify_dismissed_concerns
  rw [List.foldl_append, List.foldl_cons]
  exact foldl_processCluster_mono senti rows post _ _
    (processCluster_mem_dismiss senti rows _ c _ hmem hlead hcond)

/-- Witness row: a leadership message matching a dismissive pattern. -/
def wLead : Row := ⟨5, "PM_Lead", "general", "probably nothing"⟩

/-- C6 witness: a singleton cluster holding only the dismissive leadership
message still yields the downplaying flag, with no concern raised. -/
theorem C6_witness :
    (([0] : List Nat) ∈ [[0]] ∧ (0 : Nat) ∈ [0] ∧ 0 < ([wLead] : List Row).length ∧
      isLeadership (([wLead] : List Row).getD 0 default).sender = true) ∧
    mkFlag (([wLead] : List Row).getD 0 default) dismissReason ∈
      identify_dismissed_concerns (fun _ => 0) [wLead] [[0]] :=
  ⟨⟨by decide, by decide, by decide, by decide⟩,
    C6_leadership_dismiss_flag (fun _ => 0) [wLead] [[0]] [0] 0 (by decide) (by decide)
      (by decide) (by decide) (Or.inl (by decide))⟩

/-- Sweep selection condition as the specification words it: non-leadership
sender, a persistence marker in the text, and no entry of the
flagged-list-so-far carrying the same timestamp. -/
def sweepSelStep (fl : List FlaggedMessage) (r : Row) : List FlaggedMessage :=
  if isLeadership r.sender = false ∧ hasPersistenceMarker r.message = true ∧
      fl.any (fun f => f.timestamp == r.timestamp) = false
  then [mkFlag r persistReason] else []

theorem pass1Step_countP_persist (senti : String → ℚ)
    (st : List FlaggedMessage × Bool × Bool) (r : Row) :
    ((pass1Step senti st r).1).countP (fun f => f.reason == persistReason) =
      st.1.countP (fun f => f.reason == persistReason) := by
  unfold pass1Step
  split_ifs with h1 h2
  · simp only [List.countP_append, List.countP_cons, mkFlag]
    norm_num [show (raiseReason == persistReason) = false by decide]
  · simp only [List.countP_append, List.countP_cons, mkFlag]
    norm_num [show (dismissReason == persistReason) = false by decide]
  · rfl

theorem pass1_countP_persist (senti : String → ℚ) (ms : List Row)
    (st : List FlaggedMessage × Bool × Bool) :
    (((ms.foldl (pass1Step senti) st).1).countP (fun f => f.reason == persistReason)) =
      st.1.countP (fun f => f.reason == persistReason) := by
  induction ms generalizing st with
  | nil => rfl
  | cons r tl ih =>
    rw [List.foldl_cons, ih, pass1Step_countP_persist]

theorem sweepStep_eq_append_sel (P : List FlaggedMessage) (r : Row) :
    sweepStep P r = P ++ sweepSelStep P r := by
  unfold sweepStep sweepSelStep
  cases hLead : isLeadership r.sender <;>
    cases hAny : P.any (fun f => f.timestamp == r.timestamp) <;>
      cases hMark : hasPersistenceMarker r.message <;>
        simp

theorem sweepStep_countP_max (fl : List FlaggedMessage) (r : Row) (t : Nat) :
    max 1 ((sweepStep fl r).countP (fun f => f.timestamp == t)) ≤
      max 1 (fl.countP (fun f => f.timestamp == t)) := by
  unfold sweepStep
  split_ifs with h1 h2
  · rw [List.countP_append]
    by_cases ht : r.timestamp = t
    · subst ht
      have hany : fl.any (fun f => f.timestamp == r.timestamp) = false := by
        cases hb : fl.any (fun f => f.timestamp == r.timestamp)
        · rfl
        · rw [hb] at h1
          simp at h1
      have hzero : fl.countP (fun f => f.timestamp == r.timestamp) = 0 := by
        rw [List.countP_eq_zero]
        intro a ha
        have := (List.any_eq_false.mp hany) a ha
        simpa using this
      simp [hzero, List.countP_cons, mkFlag]
    · have hone : ([mkFlag r persistReason].countP (fun f => f.timestamp == t)) = 0 := by
        simp [List.countP_cons, mkFlag, ht]
      omega
  · exact le_rfl
  · exact le_rfl

theorem sweep_countP_max (ms : List Row) (fl : List FlaggedMessage) (t : Nat) :
    ((ms.foldl sweepStep fl).countP (fun f => f.timestamp == t)) ≤
      max 1 (fl.countP (fun f => f.timestamp == t)) := by
  induction ms generalizing fl with
  | nil => exact Nat.le_max_right 1 _
  | cons r tl ih =>
    rw [List.foldl_cons]
    exact le_trans (ih (sweepStep fl r)) (sweepStep_countP_max fl r t)

/-- C7: the persistence sweep of a cluster (i) runs only when a concern was
raised in the cluster and the cluster has more than one message — otherwise
the cluster contributes no "Continued concern" flag; (ii) flags the message
at each position if and only if the sender is non-leadership, the text has a
persistence marker, and no entry of the flagged list built so far (earlier
clusters, this cluster's raise/dismiss pass, and earlier sweep positions)
carries an equal timestamp; and consequently (iii) at most one sweep flag
per timestamp can ever be added, so two distinct messages sharing a
timestamp suppress each other. -/
theorem C7_persistence_sweep_characterization :
    (∀ (senti : String → ℚ) (rows : List Row) (fl : List FlaggedMessage) (c : List Nat),
      ((pass1Res senti rows fl c).2.1 = false ∨ (clusterMsgs rows c).length ≤ 1) →
      (processCluster senti rows fl c).countP (fun f => f.reason == persistReason) =
        fl.countP (fun f => f.reason == persistReason)) ∧
    (∀ (fl : List FlaggedMessage) (ms : List Row) (p : Nat) (hp : p < ms.length),
      (ms.take (p + 1)).foldl sweepStep fl =
        (ms.take p).foldl sweepStep fl ++
          sweepSelStep ((ms.take p).foldl sweepStep fl) ms[p]) ∧
    (∀ (ms : List Row) (fl : List FlaggedMessage) (t : Nat),
      ((ms.foldl sweepStep fl).countP (fun f => f.timestamp == t)) ≤
        max 1 (fl.countP (fun f => f.timestamp == t))) := by
  refine ⟨?_, ?_, sweep_countP_max⟩
  · intro senti rows fl c hgate
    simp only [processCluster]
    have hcond : ((pass1Res senti rows fl c).2.1 &&
        decide ((clusterMsgs rows c).length > 1)) = false := by
      rcases hgate with hg | hg
      · rw [hg]; rfl
      · have : ¬ ((clusterMsgs rows c).length > 1) := by omega
        rw [decide_eq_false this, Bool.and_false]
    rw [hcond]
    simp only [Bool.false_eq_true, if_false]
    exact pass1_countP_persist senti (clusterMsgs rows c) (fl, false, false)
  · intro fl ms p hp
    rw [← List.take_concat_get' ms p hp, List.foldl_append]
    simp only [List.foldl_cons, List.foldl_nil]
    exact sweepStep_eq_append_sel _ _

/-- Witness row: first engineer message with a persistence marker. -/
def wEng1 : Row := ⟨7, "Eng_A", "general", "still worried..."⟩

/-- Witness row: a second engineer message with a persistence marker sharing
the exact same timestamp. -/
def wEng2 : Row := ⟨7, "Eng_B", "general", "still unsure"⟩

/-- C7 witness: the gating at a singleton cluster, the sweep step at the two
positions of a two-message tied-timestamp cluster (the second is suppressed
by the first's equal timestamp), and the at-most-one-per-timestamp bound. -/
theorem C7_witness :
    ((clusterMsgs [wEng1] [0]).length ≤ 1 ∧ (0 : Nat) < ([wEng1, wEng2] : List Row).length ∧
      (1 : Nat) < ([wEng1, wEng2] : List Row).length) ∧
    ((processCluster (fun _ => 0) [wEng1] [] [0]).countP (fun f => f.reason == persistReason) =
      ([] : List FlaggedMessage).countP (fun f => f.reason == persistReason)) ∧
    (([wEng1, wEng2].take (0 + 1)).foldl sweepStep [] =
      ([wEng1, wEng2].take 0).foldl sweepStep [] ++
        sweepSelStep (([wEng1, wEng2].take 0).foldl sweepStep []) ([wEng1, wEng2][0])) ∧
    (([wEng1, wEng2].take (1 + 1)).foldl sweepStep [] =
      ([wEng1, wEng2].take 1).foldl sweepStep [] ++
        sweepSelStep (([wEng1, wEng2].take 1).foldl sweepStep []) ([wEng1, wEng2][1])) ∧
    (([wEng1, wEng2].foldl sweepStep []).countP (fun f => f.timestamp == 7) ≤
      max 1 (([] : List FlaggedMessage).countP (fun f => f.timestamp == 7))) :=
  ⟨⟨by decide, by decide, by decide⟩,
   C7_persistence_sweep_characterization.1 (fun _ => 0) [wEng1] [] [0] (Or.inr (by decide)),
   C7_persistence_sweep_characterization.2.1 [] [wEng1, wEng2] 0 (by decide),
   C7_persistence_sweep_characterization.2.1 [] [wEng1, wEng2] 1 (by decide),
   C7_persistence_sweep_characterization.2.2 [wEng1, wEng2] [] 7⟩
